import Mathlib

/-!
Shallow embedding of the rust-shell command interpreter (`src/main.rs`)
and verification of the frozen specification claims.

The Rust program is a small interactive shell: it tokenizes one input
line, dispatches the leading token to a built-in (`echo`, `type`, `exit`,
`pwd`, `cd`) or resolves it against a PATH-derived search list and runs
it as a child process.  All OS effects (filesystem metadata, `fs::read`,
`set_current_dir`, child-process stdout) are modelled by explicit oracle
functions carried in an `FS` record, and the process-wide current working
directory is threaded as explicit state.
-/

namespace RustShell

/-- The Unicode `White_Space` property, which is what the Rust function
`char::is_whitespace` tests.  `String::split_whitespace` and
`str::trim_end` both split/trim on exactly these characters. -/
def rustIsWhitespace (c : Char) : Bool :=
  let n := c.val.toNat
  (0x09 ≤ n && n ≤ 0x0D) || n = 0x20 || n = 0x85 || n = 0xA0 || n = 0x1680 ||
  (0x2000 ≤ n && n ≤ 0x200A) || n = 0x2028 || n = 0x2029 || n = 0x202F ||
  n = 0x205F || n = 0x3000

/-- Worker for `splitWhitespace`: scan the characters, keeping the
(reversed) current token in `acc` and emitting it at each whitespace
boundary. -/
def splitWsAux : List Char → List Char → List String
  | [], acc => if acc.isEmpty then [] else [String.mk acc.reverse]
  | c :: rest, acc =>
    if rustIsWhitespace c then
      if acc.isEmpty then splitWsAux rest []
      else String.mk acc.reverse :: splitWsAux rest []
    else splitWsAux rest (c :: acc)

/-- Rust `str::split_whitespace`: split on runs of whitespace, discarding
empty fragments (hence also leading/trailing whitespace). -/
def splitWhitespace (s : String) : List String :=
  splitWsAux s.toList []

/-- Rust `str::trim_end`: drop all trailing whitespace characters. -/
def trimEnd (s : String) : String :=
  ⟨(s.toList.reverse.dropWhile rustIsWhitespace).reverse⟩

/-- Rust `str::replace('~', home)`: replace every occurrence of the
character `~` by `home` (single-character pattern, so a character-wise
map is exact). -/
def replaceTilde (home : String) (s : String) : String :=
  String.join (s.toList.map (fun c => if c = '~' then home else String.singleton c))

/-- The low 9 permission bits test `mode & 0o111` uses mask 73 = 0o111. -/
def execMask : Nat := 73

/-- Metadata returned by `fs::metadata`: the claims only consult the
permission mode bits. -/
structure FileMeta where
  mode : Nat
deriving DecidableEq

/-- The kind of an `std::io::Error`, as matched by the `cd` branch. -/
inductive IOErrorKind where
  | notFound
  | permissionDenied
  | otherKind
deriving DecidableEq

/-- An `std::io::Error`: its kind plus its `Display` text. -/
structure IOError where
  kind : IOErrorKind
  text : String
deriving DecidableEq

/-- Oracles for the OS interactions of the program.
* `readOk p` models `fs::read(p).is_ok()`;
* `metadata p` models `fs::metadata(p)` (`none` = the call errors);
* `chdirErr p` models `env::set_current_dir(p)`: `none` = success,
  `some e` = failure with error `e` (the OS leaves the working directory
  unchanged on failure). -/
structure FS where
  readOk : String → Bool
  metadata : String → Option FileMeta
  chdirErr : String → Option IOError

/-- Rust `PathBuf::push`: an absolute component replaces the path,
otherwise it is appended behind a `/` separator. -/
def pathPush (p : String) (c : String) : String :=
  if c.toList.take 1 = ['/'] then c
  else if p = "" then c
  else if p.toList.getLast? = some '/' then p ++ c
  else p ++ "/" ++ c

/-- Model of `is_executable` (src/main.rs:180-188): stat the path and test
`mode & 0o111 != 0`; a failing `fs::metadata` means not executable. -/
def is_executable (fs : FS) (path : String) : Bool :=
  match fs.metadata path with
  | some m => (m.mode &&& execMask) != 0
  | none => false

/-- Model of `Command::is_builtin` (src/main.rs:94-104).  The Rust `match` on the
string literal is the equality chain below. -/
def is_builtin (command : String) : Option String :=
  if command = "echo" then some "echo is a shell builtin"
  else if command = "type" then some "type is a shell builtin"
  else if command = "exit" then some "exit is a shell builtin"
  else if command = "pwd" then some "pwd is a shell builtin"
  else if command = "cd" then some "cd is a shell builtin"
  else none

/-- Model of `Command::get_command_path` (src/main.rs:105-115): first directory in
`path` order whose joined entry both reads successfully (`fs::read`) and
is executable; `path.to_str()` never fails for UTF-8 paths, so the model
returns the joined path itself. -/
def get_command_path (fs : FS) (command : String) (path : List String) : Option String :=
  path.findSome? fun p =>
    let full := pathPush p command
    if fs.readOk full && is_executable fs full then some full else none

/-- The per-directory match criterion that `get_command_path` applies
(readable via `fs::read` and carrying an execute bit). -/
def dirMatches (fs : FS) (command : String) (dir : String) : Bool :=
  fs.readOk (pathPush dir command) && is_executable fs (pathPush dir command)

/-- Spec-side criterion for claim C1, following the wording of the spec only:
a file of that name exists directly inside the directory (metadata is
available) and has at least one of the execute permission bits set;
readability is NOT required. -/
def specDirMatches (fs : FS) (command : String) (dir : String) : Bool :=
  match fs.metadata (pathPush dir command) with
  | some m => (m.mode &&& execMask) != 0
  | none => false

/-- Spec-side operation for claim C2, following the wording of the spec only:
trim exactly one trailing newline sequence, leaving all other trailing
characters intact. -/
def trimOneNewline (s : String) : String :=
  let r := s.toList.reverse
  if r.take 2 = ['\n', '\x0d'] then String.mk (r.drop 2).reverse
  else if r.take 1 = ['\n'] then String.mk (r.drop 1).reverse
  else s

/-- Spec-side join for claim C8: the remaining tokens rejoined with
single spaces between them. -/
def joinSpaces : List String → String
  | [] => ""
  | [a] => a
  | a :: rest => a ++ " " ++ joinSpaces rest

/-- The process environment as the program consults it inside `parse`:
only `HOME` is read there (`PATH` is read once in `main` and passed in
as the search list). -/
structure Env where
  home : Option String
deriving DecidableEq

/-- The process-wide mutable state: the current working directory. -/
structure ShellState where
  cwd : String
deriving DecidableEq

/-- Outcome of one `parse` call: `Ok(response)`, `Err(e)` (the `?` on
`env::var("HOME")`), or process termination via `exit(0)`. -/
inductive ParseResult where
  | ok (response : String)
  | err (msg : String)
  | exitCode (code : Nat)
deriving DecidableEq

/-- Result and post-state of one `parse` call. -/
structure ParseOut where
  result : ParseResult
  state : ShellState
deriving DecidableEq

/-- Display text of `env::VarError::NotPresent`, the error propagated by
`env::var("HOME")?`. -/
def varErrNotPresent : String := "environment variable not found"

/-- Model of `Shell::change_dir` (src/main.rs:74-78).
`env::current_dir()?.push(path)` pushes onto a temporary and is a no-op;
`env::set_current_dir(path)?` performs the change.  On success the
working directory becomes the target; on failure the OS leaves it
unchanged and the error propagates. -/
def change_dir (fs : FS) (_st : ShellState) (target : String) : Except IOError ShellState :=
  match fs.chdirErr target with
  | none => .ok { cwd := target }
  | some e => .error e

/-- The `echo` fold (src/main.rs:127-133): accumulate tokens, inserting
a space before each token when the accumulator is non-empty. -/
def echoFold (args : List String) : String :=
  args.foldl (fun acc s => (if acc.isEmpty then acc else acc ++ " ") ++ s) ""

/-- Model of `parse` (src/main.rs:118-178).  `exec p args` is the oracle for the
captured stdout of spawning resolved path `p` on `args` (after
`from_utf8_lossy`); `PathBuf::try_from(String)` is infallible, so the
`cd: invalid path` arm of the source is unreachable and not modelled. -/
def parse (fs : FS) (exec : String → List String → String) (env : Env)
    (input : String) (path : List String) (st : ShellState) : ParseOut :=
  match splitWhitespace input with
  | [] => ⟨.ok "", st⟩
  | command :: args =>
    if command = "echo" then ⟨.ok (echoFold args), st⟩
    else if command = "exit" then ⟨.exitCode 0, st⟩
    else if command = "type" then
      match args with
      | [] => ⟨.ok "type: expected an argument of a command name", st⟩
      | a :: _ =>
        let r :=
          match is_builtin a with
          | some s => s
          | none =>
            match get_command_path fs a path with
            | some v => a ++ " is " ++ v
            | none => a ++ ": not found"
        ⟨.ok r, st⟩
    else if command = "pwd" then ⟨.ok st.cwd, st⟩
    else if command = "cd" then
      match args with
      | p :: _ =>
        match env.home with
        | none => ⟨.err varErrNotPresent, st⟩
        | some home =>
          let target := replaceTilde home p
          match change_dir fs st target with
          | .ok st' => ⟨.ok "", st'⟩
          | .error e =>
            let msg :=
              match e.kind with
              | .notFound => "cd: " ++ target ++ ": No such file or directory"
              | .permissionDenied => "cd: permission denied: " ++ target
              | .otherKind => "cd: error changing to " ++ target ++ ": " ++ e.text
            ⟨.ok msg, st⟩
      | [] =>
        match env.home with
        | some home =>
          match fs.chdirErr home with
          | none => ⟨.ok "", { cwd := home }⟩
          | some e => ⟨.ok ("cd: error changing to home directory: " ++ e.text), st⟩
        | none => ⟨.ok "cd: HOME environment variable not set", st⟩
    else
      match get_command_path fs command path with
      | some p => ⟨.ok (trimEnd (exec p args)), st⟩
      | none => ⟨.ok (command ++ ": command not found"), st⟩

/-- Which stream a line of output is written to by the `Shell` struct. -/
inductive Channel where
  | toStdout
  | toStderr
deriving DecidableEq

/-- Model of `Shell::write_stdout` (src/main.rs:63-68): `writeln!` of the text to
the stdout handle. -/
def write_stdout (text : String) : Channel × String :=
  (Channel.toStdout, text ++ "\n")

/-- Model of `Shell::write_stderr` (src/main.rs:69-73): despite its name, the
source performs `writeln!(self.stdout, ...)` — it writes to the stdout
handle. -/
def write_stderr (text : String) : Channel × String :=
  (Channel.toStdout, text ++ "\n")

/-- One iteration of the `main` loop (src/main.rs:20-31): run `parse`
and route the outcome — non-empty `Ok` via `write_stdout`, empty `Ok`
not written at all, `Err` via `write_stderr`; `exit` terminates the
process before any write. -/
def mainStep (fs : FS) (exec : String → List String → String) (env : Env)
    (input : String) (path : List String) (st : ShellState) :
    Option (Channel × String) :=
  match (parse fs exec env input path st).result with
  | .ok out => if out = "" then none else some (write_stdout out)
  | .err e => some (write_stderr e)
  | .exitCode _ => none
/-- Trivial filesystem oracle: nothing is readable, nothing has metadata,
every directory change succeeds.  Used by witnesses that do not touch the
filesystem. -/
def trivFS : FS :=
  { readOk := fun _ => false
    metadata := fun _ => none
    chdirErr := fun _ => none }

/-- Child-process oracle that is never consulted by the witnesses using
it (all their commands are built-ins or unresolvable). -/
def noExec : String → List String → String := fun _ _ => ""

/-- Filesystem for the C1 counterexample: `/bin/x` has metadata with all
three execute bits set (mode 0o111 = 73) but `fs::read` fails on it,
matching a real file with permissions `--x--x--x`. -/
def c1fs : FS :=
  { readOk := fun _ => false
    metadata := fun p => if p = "/bin/x" then some ⟨73⟩ else none
    chdirErr := fun _ => none }

/-- Filesystem for the C1 witness: `/bin/x` is readable and has mode
0o755 = 493. -/
def c1wfs : FS :=
  { readOk := fun p => p == "/bin/x"
    metadata := fun p => if p = "/bin/x" then some ⟨493⟩ else none
    chdirErr := fun _ => none }

/-- Filesystem for the C2 counterexample and witness: `/bin/x` is a
readable executable. -/
def c2fs : FS :=
  { readOk := fun p => p == "/bin/x"
    metadata := fun p => if p = "/bin/x" then some ⟨493⟩ else none
    chdirErr := fun _ => none }

/-- Child-process oracle for C2: the spawned command prints `a` followed
by two newlines. -/
def c2exec : String → List String → String := fun _ _ => "a\n\n"

/-- Filesystem for the C3 witness: changing into `/nonexistent/dir`
fails with a not-found error, every other change succeeds. -/
def c3fs : FS :=
  { readOk := fun _ => false
    metadata := fun _ => none
    chdirErr := fun p =>
      if p = "/nonexistent/dir" then
        some ⟨IOErrorKind.notFound, "No such file or directory (os error 2)"⟩
      else none }

/-- Filesystem for the C5 witness: directories `/b` and `/c` both hold a
readable executable `x`; `/a` holds nothing. -/
def c5fs : FS :=
  { readOk := fun p => p == "/b/x" || p == "/c/x"
    metadata := fun p => if p = "/b/x" || p = "/c/x" then some ⟨493⟩ else none
    chdirErr := fun _ => none }

/-! Helper lemmas shared by the claim proofs. -/

/-- A string built from a non-empty character list is not the empty
string. -/
theorem mk_ne_empty (l : List Char) (h : l ≠ []) : String.mk l ≠ "" := by
  intro hc
  apply h
  have := congrArg String.data hc
  simpa using this

/-- Every token emitted by the tokenizer worker is non-empty. -/
theorem splitWsAux_mem_ne (l : List Char) : ∀ (acc : List Char) (t : String),
    t ∈ splitWsAux l acc → t ≠ "" := by
  induction l with
  | nil =>
    intro acc t ht
    by_cases h : acc.isEmpty
    · simp [splitWsAux, h] at ht
    · simp [splitWsAux, h] at ht
      subst ht
      exact mk_ne_empty _ (by simp [List.isEmpty_iff] at h; simp [h])
  | cons c rest ih =>
    intro acc t ht
    by_cases hw : rustIsWhitespace c
    · by_cases h : acc.isEmpty
      · simp [splitWsAux, hw, h] at ht
        exact ih [] t ht
      · simp [splitWsAux, hw, h] at ht
        rcases ht with ht | ht
        · subst ht
          exact mk_ne_empty _ (by simp [List.isEmpty_iff] at h; simp [h])
        · exact ih [] t ht
    · simp [splitWsAux, hw] at ht
      exact ih (c :: acc) t ht

/-- Every token produced by `splitWhitespace` is non-empty. -/
theorem tokens_ne_empty (s : String) (t : String) (ht : t ∈ splitWhitespace s) :
    t ≠ "" :=
  splitWsAux_mem_ne s.toList [] t ht

/-- Absorbing a glued pair into the head of a space-join. -/
theorem joinSpaces_glue (a b : String) (rest : List String) :
    joinSpaces ((a ++ " " ++ b) :: rest) = a ++ " " ++ joinSpaces (b :: rest) := by
  cases rest with
  | nil => simp [joinSpaces]
  | cons c cs => simp [joinSpaces, String.append_assoc]

/-- A string with a space glued into the middle is non-empty. -/
theorem append_space_ne_empty (a b : String) : a ++ " " ++ b ≠ "" := by
  intro hc
  have := congrArg String.data hc
  simp at this

/-- Unrolling the `echo` accumulator fold from a non-empty accumulator
yields the space-join with the accumulator as head. -/
theorem echoFold_go (args : List String) : ∀ acc : String, acc ≠ "" →
    List.foldl (fun acc s => (if acc.isEmpty then acc else acc ++ " ") ++ s) acc args
      = joinSpaces (acc :: args) := by
  induction args with
  | nil => intro acc h; simp [joinSpaces]
  | cons s rest ih =>
    intro acc h
    have hne : acc.isEmpty = false := by
      cases hb : acc.isEmpty with
      | false => rfl
      | true => exact absurd ((String.isEmpty_iff acc).mp hb) h
    rw [List.foldl_cons, if_neg (by simp [hne])]
    rw [ih (acc ++ " " ++ s) (append_space_ne_empty acc s)]
    rw [joinSpaces_glue]
    simp [joinSpaces]

/-- The `echo` fold of the source equals the space-join of the tokens,
provided the leading token is non-empty (the tokenizer guarantees
this). -/
theorem echoFold_eq_joinSpaces (a : String) (rest : List String) (h : a ≠ "") :
    echoFold (a :: rest) = joinSpaces (a :: rest) := by
  unfold echoFold
  rw [List.foldl_cons]
  have h0 : (("" : String).isEmpty) = true := rfl
  rw [if_pos h0]
  have h1 : ("" : String) ++ a = a := by
    apply String.ext
    simp
  rw [h1]
  exact echoFold_go rest a h

/-- On each of the five built-in names, `is_builtin` answers with the
shell-builtin sentence for that name. -/
theorem is_builtin_of_mem (a : String)
    (h : a = "echo" ∨ a = "type" ∨ a = "exit" ∨ a = "pwd" ∨ a = "cd") :
    is_builtin a = some (a ++ " is a shell builtin") := by
  rcases h with h | h | h | h | h <;> subst h <;> decide

/-- On any other name, `is_builtin` answers nothing. -/
theorem is_builtin_of_not_mem (a : String)
    (h : ¬(a = "echo" ∨ a = "type" ∨ a = "exit" ∨ a = "pwd" ∨ a = "cd")) :
    is_builtin a = none := by
  push_neg at h
  simp [is_builtin, h.1, h.2.1, h.2.2.1, h.2.2.2.1, h.2.2.2.2]

/-! Claim C1. -/

/-- Claim C1 counterexample: for command `x` and search path `[/bin]`
where `/bin/x` exists with mode `--x--x--x` (execute bits set, not
readable), the spec-side criterion declares a match but resolution
returns nothing — refuting the claimed if-and-only-if, because
`get_command_path` additionally requires `fs::read` to succeed. -/
theorem c1_claim_counterexample :
    ¬ ((get_command_path c1fs "x" ["/bin"]).isSome = true ↔
        specDirMatches c1fs "x" "/bin" = true) := by
  decide

/-- Claim C1 (amended): resolution yields a match exactly when some
directory of the search path holds a file of that name that BOTH reads
successfully via `fs::read` AND has at least one of the owner/group/other
execute permission bits set in its metadata. -/
theorem c1_resolution_requires_read (fs : FS) (c : String) (path : List String) :
    (get_command_path fs c path).isSome = true ↔
      ∃ d ∈ path, fs.readOk (pathPush d c) = true ∧
        is_executable fs (pathPush d c) = true := by
  induction path with
  | nil => simp [get_command_path]
  | cons d rest ih =>
    rw [get_command_path, List.findSome?_cons]
    by_cases hr : fs.readOk (pathPush d c)
    · by_cases he : is_executable fs (pathPush d c)
      · simp [hr, he]
      · simp only [hr, he]
        simp only [get_command_path] at ih
        simp [ih, he]
    · simp only [hr]
      simp only [get_command_path] at ih
      simp [ih, hr]

/-- Claim C1 witness: on a filesystem where `/bin/x` is readable and has
mode 0o755, resolution of `x` over `[/bin]` succeeds. -/
theorem c1_resolution_requires_read_witness :
    (get_command_path c1wfs "x" ["/bin"]).isSome = true :=
  (c1_resolution_requires_read c1wfs "x" ["/bin"]).mpr
    ⟨"/bin", by decide, by decide, by decide⟩

/-! Claim C2. -/

/-- Claim C2 counterexample: with the child printing `a` plus two
newlines, the shell responds `a` (all trailing whitespace stripped by
`trim_end`), while the claim demands `a` plus one newline (exactly one
trailing newline sequence removed). -/
theorem c2_claim_counterexample :
    (parse c2fs c2exec ⟨none⟩ "x" ["/bin"] ⟨"/"⟩).result = ParseResult.ok "a"
    ∧ trimOneNewline "a\n\n" = "a\n"
    ∧ ParseResult.ok "a" ≠ ParseResult.ok (trimOneNewline "a\n\n") := by
  decide

/-- Claim C2 (amended): for an external command that resolves, the
Response is the captured child stdout with ALL trailing whitespace
(newlines, spaces, tabs, and any other trailing whitespace characters)
removed, as `str::trim_end` does; the working directory is untouched. -/
theorem c2_external_output_trimmed (fs : FS) (exec : String → List String → String)
    (env : Env) (input : String) (path : List String) (st : ShellState)
    (command : String) (args : List String)
    (h : splitWhitespace input = command :: args)
    (hb : ¬(command = "echo" ∨ command = "exit" ∨ command = "type" ∨
            command = "pwd" ∨ command = "cd"))
    (p : String) (hp : get_command_path fs command path = some p) :
    parse fs exec env input path st = ⟨.ok (trimEnd (exec p args)), st⟩ := by
  push_neg at hb
  unfold parse
  rw [h]
  simp [hb.1, hb.2.1, hb.2.2.1, hb.2.2.2.1, hb.2.2.2.2, hp]

/-- Claim C2 witness: the command `x` resolving to `/bin/x` with child
stdout `a` plus two newlines produces the Response `a`. -/
theorem c2_external_output_trimmed_witness :
    parse c2fs c2exec ⟨none⟩ "x" ["/bin"] ⟨"/"⟩ = ⟨.ok "a", ⟨"/"⟩⟩ :=
  Eq.trans
    (c2_external_output_trimmed c2fs c2exec ⟨none⟩ "x" ["/bin"] ⟨"/"⟩ "x" []
      (by decide) (by decide) "/bin/x" (by decide))
    (by decide)

/-! Claim C3. -/

/-- Claim C3: when `cd` is invoked with an argument and the
post-expansion target fails with a not-found error, the Response is
exactly `cd: <target>: No such file or directory` and the working
directory is unchanged; moreover, on ANY failed directory change the
working directory is left as it was. -/
theorem c3_cd_notfound_message_and_cwd (fs : FS)
    (exec : String → List String → String) (env : Env) (input : String)
    (path : List String) (st : ShellState) (p home : String) (rest : List String)
    (h : splitWhitespace input = "cd" :: p :: rest) (hh : env.home = some home) :
    (∀ txt, fs.chdirErr (replaceTilde home p) = some ⟨IOErrorKind.notFound, txt⟩ →
        parse fs exec env input path st =
          ⟨.ok ("cd: " ++ replaceTilde home p ++ ": No such file or directory"), st⟩)
    ∧ (∀ e, fs.chdirErr (replaceTilde home p) = some e →
        (parse fs exec env input path st).state = st) := by
  constructor
  · intro txt hc
    unfold parse
    rw [h]
    simp [hh, change_dir, hc]
  · intro e hc
    obtain ⟨k, txt⟩ := e
    unfold parse
    rw [h]
    cases k <;> simp [hh, change_dir, hc]

/-- Claim C3 witness: `cd /nonexistent/dir` with HOME set to `/home/u`
answers the not-found message and leaves the working directory at
`/start`. -/
theorem c3_cd_notfound_message_and_cwd_witness :
    parse c3fs noExec ⟨some "/home/u"⟩ "cd /nonexistent/dir" [] ⟨"/start"⟩ =
      ⟨.ok ("cd: " ++ replaceTilde "/home/u" "/nonexistent/dir" ++
        ": No such file or directory"), ⟨"/start"⟩⟩ :=
  (c3_cd_notfound_message_and_cwd c3fs noExec ⟨some "/home/u"⟩
      "cd /nonexistent/dir" [] ⟨"/start"⟩ "/nonexistent/dir" "/home/u" []
      (by decide) rfl).1
    "No such file or directory (os error 2)" (by decide)

/-! Claim C4. -/

/-- Claim C4 refutation at the failing input: on `cd foo` with HOME
unset, `parse` returns an error Response, and the surrounding loop
routes it through `write_stderr` — which, in the source, performs
`writeln!(self.stdout, ...)`, so the error lands newline-terminated on
STANDARD OUTPUT, not on the error stream. -/
theorem c4_error_routed_to_stdout :
    (parse trivFS noExec ⟨none⟩ "cd foo" [] ⟨"/"⟩).result =
      ParseResult.err varErrNotPresent
    ∧ mainStep trivFS noExec ⟨none⟩ "cd foo" [] ⟨"/"⟩ =
        some (Channel.toStdout, varErrNotPresent ++ "\n") := by
  decide

/-! Claim C5. -/

/-- Claim C5: resolution returns the joined path of the first directory
in search-path order whose entry matches (readable executable), for any
directories before it that do not match and regardless of later
directories that also match; and it returns nothing exactly when no
directory of the search path matches. -/
theorem c5_first_match_wins (fs : FS) (c : String) :
    (∀ (pre post : List String) (d : String),
        dirMatches fs c d = true → (∀ e ∈ pre, dirMatches fs c e = false) →
        get_command_path fs c (pre ++ d :: post) = some (pathPush d c))
    ∧ (∀ path : List String,
        get_command_path fs c path = none ↔
          ∀ d ∈ path, dirMatches fs c d = false) := by
  constructor
  · intro pre post d hd hpre
    induction pre with
    | nil =>
      simp only [List.nil_append]
      simp only [dirMatches, Bool.and_eq_true] at hd
      simp [get_command_path, List.findSome?_cons, hd.1, hd.2]
    | cons e pre' ih =>
      have he : dirMatches fs c e = false := hpre e (by simp)
      simp only [dirMatches, Bool.and_eq_false_iff] at he
      rw [List.cons_append, get_command_path, List.findSome?_cons]
      rcases he with he | he
      · simp only [he]
        simp only [Bool.false_and, if_false]
        exact ih (fun x hx => hpre x (by simp [hx]))
      · simp only [he]
        simp only [Bool.and_false, if_false]
        exact ih (fun x hx => hpre x (by simp [hx]))
  · intro path
    induction path with
    | nil => simp [get_command_path]
    | cons d rest ih =>
      rw [get_command_path, List.findSome?_cons]
      by_cases hm : dirMatches fs c d = true
      · simp only [dirMatches, Bool.and_eq_true] at hm
        simp [hm.1, hm.2, dirMatches]
      · simp only [dirMatches, Bool.and_eq_true] at hm
        push_neg at hm
        by_cases hr : fs.readOk (pathPush d c) = true
        · have he : is_executable fs (pathPush d c) = false := by
            cases hx : is_executable fs (pathPush d c)
            · rfl
            · exact absurd hx (hm hr)
          simp only [hr, he]
          simp only [get_command_path] at ih
          simp [ih, dirMatches, hr, he]
        · have hr' : fs.readOk (pathPush d c) = false := by
            cases hx : fs.readOk (pathPush d c)
            · rfl
            · exact absurd hx hr
          simp only [hr']
          simp only [get_command_path] at ih
          simp [ih, dirMatches, hr']

/-- Claim C5 witness: with `/b` and `/c` both holding executable `x` and
`/a` holding nothing, resolving over `[/a, /b, /c]` returns `/b/x`. -/
theorem c5_first_match_wins_witness :
    get_command_path c5fs "x" (["/a"] ++ "/b" :: ["/c"]) = some (pathPush "/b" "x") :=
  (c5_first_match_wins c5fs "x").1 ["/a"] ["/c"] "/b" (by decide) (by decide)

/-! Claim C6. -/

/-- Claim C6: a `type` line with no argument answers the usage hint;
with an argument that is one of the five built-in names it answers
`<name> is a shell builtin` (for every filesystem and search path, so
the built-in check takes precedence over external resolution); with any
other argument it answers `<name> is <resolved_path>` when resolution
succeeds and `<name>: not found` when it fails.  The working directory
is unchanged throughout. -/
theorem c6_type_dispatch (fs : FS) (exec : String → List String → String)
    (env : Env) (input : String) (path : List String) (st : ShellState)
    (rest : List String) (h : splitWhitespace input = "type" :: rest) :
    (rest = [] →
      parse fs exec env input path st =
        ⟨.ok "type: expected an argument of a command name", st⟩)
    ∧ (∀ a rest', rest = a :: rest' →
        ((a = "echo" ∨ a = "type" ∨ a = "exit" ∨ a = "pwd" ∨ a = "cd") →
          parse fs exec env input path st = ⟨.ok (a ++ " is a shell builtin"), st⟩)
        ∧ (¬(a = "echo" ∨ a = "type" ∨ a = "exit" ∨ a = "pwd" ∨ a = "cd") →
            ∀ r, get_command_path fs a path = some r →
              parse fs exec env input path st = ⟨.ok (a ++ " is " ++ r), st⟩)
        ∧ (¬(a = "echo" ∨ a = "type" ∨ a = "exit" ∨ a = "pwd" ∨ a = "cd") →
            get_command_path fs a path = none →
              parse fs exec env input path st = ⟨.ok (a ++ ": not found"), st⟩)) := by
  refine ⟨?_, ?_⟩
  · intro hrest
    subst hrest
    unfold parse
    rw [h]
    simp
  · intro a rest' hrest
    subst hrest
    refine ⟨?_, ?_, ?_⟩
    · intro hb
      unfold parse
      rw [h]
      simp [is_builtin_of_mem a hb]
    · intro hb r hr
      unfold parse
      rw [h]
      simp [is_builtin_of_not_mem a hb, hr]
    · intro hb hr
      unfold parse
      rw [h]
      simp [is_builtin_of_not_mem a hb, hr]

/-- Claim C6 witness: `type echo` answers that `echo` is a shell
builtin, on a filesystem where nothing resolves externally. -/
theorem c6_type_dispatch_witness :
    parse trivFS noExec ⟨none⟩ "type echo" [] ⟨"/"⟩ =
      ⟨.ok ("echo" ++ " is a shell builtin"), ⟨"/"⟩⟩ :=
  ((c6_type_dispatch trivFS noExec ⟨none⟩ "type echo" [] ⟨"/"⟩ ["echo"]
      (by decide)).2 "echo" [] rfl).1 (Or.inl rfl)

/-! Claim C7. -/

/-- Claim C7: a `cd` invocation with an argument replaces EVERY
occurrence of `~` in the argument by the HOME value and attempts the
change on that expanded target; when the change succeeds the working
directory becomes exactly the expanded target and the Response is
empty. -/
theorem c7_tilde_expansion (fs : FS) (exec : String → List String → String)
    (env : Env) (input : String) (path : List String) (st : ShellState)
    (p home : String) (rest : List String)
    (h : splitWhitespace input = "cd" :: p :: rest) (hh : env.home = some home)
    (hc : fs.chdirErr (replaceTilde home p) = none) :
    parse fs exec env input path st = ⟨.ok "", ⟨replaceTilde home p⟩⟩ := by
  unfold parse
  rw [h]
  simp [hh, change_dir, hc]

/-- Claim C7 witness: `cd ~/sub` with HOME set to `/home/u` changes the
working directory to `/home/u/sub`. -/
theorem c7_tilde_expansion_witness :
    parse trivFS noExec ⟨some "/home/u"⟩ "cd ~/sub" [] ⟨"/"⟩ =
      ⟨.ok "", ⟨"/home/u/sub"⟩⟩ :=
  Eq.trans
    (c7_tilde_expansion trivFS noExec ⟨some "/home/u"⟩ "cd ~/sub" [] ⟨"/"⟩
      "~/sub" "/home/u" [] (by decide) rfl rfl)
    (by decide)

/-! Claim C8. -/

/-- Claim C8: an `echo` line answers the remaining tokens rejoined with
single spaces (runs of whitespace in the input collapse and
leading/trailing whitespace is dropped by the tokenizer), leaving the
working directory unchanged. -/
theorem c8_echo_join (fs : FS) (exec : String → List String → String)
    (env : Env) (input : String) (path : List String) (st : ShellState)
    (rest : List String) (h : splitWhitespace input = "echo" :: rest) :
    parse fs exec env input path st = ⟨.ok (joinSpaces rest), st⟩ := by
  have hjoin : echoFold rest = joinSpaces rest := by
    cases rest with
    | nil => rfl
    | cons a rest' =>
      exact echoFold_eq_joinSpaces a rest'
        (tokens_ne_empty input a (by rw [h]; simp))
  unfold parse
  rw [h]
  simp [hjoin]

/-- Claim C8 witness: the input `echo a   b` answers `a b`. -/
theorem c8_echo_join_witness :
    parse trivFS noExec ⟨none⟩ "echo a   b" [] ⟨"/"⟩ = ⟨.ok "a b", ⟨"/"⟩⟩ :=
  Eq.trans
    (c8_echo_join trivFS noExec ⟨none⟩ "echo a   b" [] ⟨"/"⟩ ["a", "b"]
      (by decide))
    (by decide)

/-! Claim C9. -/

/-- Claim C9: a line with no tokens (empty or all-whitespace) answers
the empty Response with the state untouched, for EVERY filesystem,
child-process oracle, environment and search path — so no built-in
dispatch, external resolution or error can depend on them. -/
theorem c9_blank_line_empty_response (fs : FS)
    (exec : String → List String → String) (env : Env) (input : String)
    (path : List String) (st : ShellState) (h : splitWhitespace input = []) :
    parse fs exec env input path st = ⟨.ok "", st⟩ := by
  unfold parse
  rw [h]

/-- Claim C9 witness: a three-space line answers the empty Response. -/
theorem c9_blank_line_empty_response_witness :
    parse trivFS noExec ⟨none⟩ "   " [] ⟨"/"⟩ = ⟨.ok "", ⟨"/"⟩⟩ :=
  c9_blank_line_empty_response trivFS noExec ⟨none⟩ "   " [] ⟨"/"⟩ (by decide)

/-! Claim C10. -/

/-- Claim C10: every `cd` with an argument looks HOME up before doing
anything; when HOME is unset, `parse` propagates the variable-lookup
error for EVERY argument — even one containing no `~` — and the working
directory is untouched (no change is attempted on any filesystem). -/
theorem c10_cd_requires_home (fs : FS) (exec : String → List String → String)
    (env : Env) (input : String) (path : List String) (st : ShellState)
    (p : String) (rest : List String)
    (h : splitWhitespace input = "cd" :: p :: rest) (hh : env.home = none) :
    parse fs exec env input path st = ⟨.err varErrNotPresent, st⟩ := by
  unfold parse
  rw [h]
  simp [hh]

/-- Claim C10 witness: `cd /tmp` — an argument with no tilde — errors
when HOME is unset, on a filesystem where every change would succeed. -/
theorem c10_cd_requires_home_witness :
    parse trivFS noExec ⟨none⟩ "cd /tmp" [] ⟨"/"⟩ =
      ⟨.err varErrNotPresent, ⟨"/"⟩⟩ :=
  c10_cd_requires_home trivFS noExec ⟨none⟩ "cd /tmp" [] ⟨"/"⟩ "/tmp" []
    (by decide) rfl

end RustShell
